import Mathlib

/-!
Shallow embedding of the medical-inspector extraction-and-reconciliation
engine (src/src/comparison.py and src/src/extraction.py) in Lean 4,
together with theorems settling the frozen claims about it.

Python strings are modelled as Lean `String` / `List Char`; Python dicts
with string keys as association lists in insertion order; Python `None`
as `Option.none`; Python floats as exact decimals / rationals (the
decimal literals occurring in the documents are exactly representable
as doubles, and the claims under study only involve decimal arithmetic
and comparisons, so no rounding behaviour is lost); a Python function
that can raise as an `Except`- or `Option`-valued function.
-/

namespace MedInspector

/-- ASCII/Latin-1 whitespace test matching Python `str.strip` /
regex `\s` on the document texts (space, tab, LF, CR, VT, FF). -/
def pyIsWS (c : Char) : Bool :=
  c = ' ' || c = '\t' || c = '\n' || c = '\r' || c = '\x0b' || c = '\x0c'

/-- Python `str.lower` restricted to ASCII plus the Latin-1 uppercase
letters (covers every character appearing in the French field names). -/
def lowerChar (c : Char) : Char :=
  if 'A' ≤ c && c ≤ 'Z' then Char.ofNat (c.toNat + 32)
  else if 0xC0 ≤ c.toNat && c.toNat ≤ 0xDE && c.toNat ≠ 0xD7 then Char.ofNat (c.toNat + 32)
  else c

def lowerStr (s : String) : String := String.mk (s.toList.map lowerChar)

/-- `str.strip()` on a character list. -/
def pyStripL (cs : List Char) : List Char :=
  ((cs.dropWhile pyIsWS).reverse.dropWhile pyIsWS).reverse

def pyStrip (s : String) : String := String.mk (pyStripL s.toList)

/-- Helper for `str.splitlines()`: `acc` holds the current line
reversed; a line break ending the text does not open a new line. -/
def pySplitAux (acc : List Char) : List Char → List (List Char)
  | [] => [acc.reverse]
  | '\r' :: '\n' :: [] => [acc.reverse]
  | '\r' :: '\n' :: tl => acc.reverse :: pySplitAux [] tl
  | '\r' :: [] => [acc.reverse]
  | '\r' :: tl => acc.reverse :: pySplitAux [] tl
  | '\n' :: [] => [acc.reverse]
  | '\n' :: tl => acc.reverse :: pySplitAux [] tl
  | c :: tl => pySplitAux (c :: acc) tl

/-- `str.splitlines()`: split on LF, CR and CRLF (the separators that
occur in extracted PDF text), without a trailing empty line. -/
def pySplitlinesL : List Char → List (List Char)
  | [] => []
  | cs => pySplitAux [] cs

def pySplitlines (s : String) : List String :=
  (pySplitlinesL s.toList).map String.mk

def digitVal (c : Char) : Nat := c.toNat - 48

/-! ## Model of `datetime.strptime` for the fixed format list of
`parse_date` (src/src/comparison.py, lines 30-52).

A format string is a list of directives; each directive matches a string
prefix exactly the way the CPython `_strptime` regex fragment for it
does, listing the candidate `(value, rest)` pairs in alternation order.
A whole format is matched with full backtracking (the priority order of
the Python `re` engine), and — as in `_strptime` — the *first* match
found must consume the entire input, otherwise the format fails. -/

inductive Dir where
  | dY | dm | dd | dH | dM | dS | db | dB
  | lit (c : Char)
deriving DecidableEq, BEq, Repr

/-- `%Y`: exactly four digits (`\d\d\d\d`). -/
def matchY : List Char → List (Nat × List Char)
  | a :: b :: c :: d :: rest =>
    if a.isDigit && b.isDigit && c.isDigit && d.isDigit then
      [(((digitVal a * 10 + digitVal b) * 10 + digitVal c) * 10 + digitVal d, rest)]
    else []
  | _ => []

/-- `%m`: `1[0-2]|0[1-9]|[1-9]`, alternatives in regex order. -/
def matchm : List Char → List (Nat × List Char)
  | [] => []
  | c1 :: rest =>
    (match rest with
     | c2 :: rest2 =>
       (if c1 = '1' && ('0' ≤ c2 && c2 ≤ '2') then [(10 + digitVal c2, rest2)] else []) ++
       (if c1 = '0' && ('1' ≤ c2 && c2 ≤ '9') then [(digitVal c2, rest2)] else [])
     | [] => []) ++
    (if '1' ≤ c1 && c1 ≤ '9' then [(digitVal c1, rest)] else [])

/-- `%d`: `3[01]|[12]\d|0[1-9]|[1-9]`, alternatives in regex order. -/
def matchd : List Char → List (Nat × List Char)
  | [] => []
  | c1 :: rest =>
    (match rest with
     | c2 :: rest2 =>
       (if c1 = '3' && (c2 = '0' || c2 = '1') then [(30 + digitVal c2, rest2)] else []) ++
       (if (c1 = '1' || c1 = '2') && c2.isDigit then
          [(digitVal c1 * 10 + digitVal c2, rest2)] else []) ++
       (if c1 = '0' && ('1' ≤ c2 && c2 ≤ '9') then [(digitVal c2, rest2)] else [])
     | [] => []) ++
    (if '1' ≤ c1 && c1 ≤ '9' then [(digitVal c1, rest)] else [])

/-- `%H`: `2[0-3]|[0-1]\d|\d`. -/
def matchH : List Char → List (Nat × List Char)
  | [] => []
  | c1 :: rest =>
    (match rest with
     | c2 :: rest2 =>
       (if c1 = '2' && ('0' ≤ c2 && c2 ≤ '3') then [(20 + digitVal c2, rest2)] else []) ++
       (if (c1 = '0' || c1 = '1') && c2.isDigit then
          [(digitVal c1 * 10 + digitVal c2, rest2)] else [])
     | [] => []) ++
    (if c1.isDigit then [(digitVal c1, rest)] else [])

/-- `%M`: `[0-5]\d|\d`. -/
def matchMin : List Char → List (Nat × List Char)
  | [] => []
  | c1 :: rest =>
    (match rest with
     | c2 :: rest2 =>
       if ('0' ≤ c1 && c1 ≤ '5') && c2.isDigit then
         [(digitVal c1 * 10 + digitVal c2, rest2)] else []
     | [] => []) ++
    (if c1.isDigit then [(digitVal c1, rest)] else [])

/-- `%S`: `6[01]|[0-5]\d|\d`. -/
def matchSec : List Char → List (Nat × List Char)
  | [] => []
  | c1 :: rest =>
    (match rest with
     | c2 :: rest2 =>
       (if c1 = '6' && (c2 = '0' || c2 = '1') then [(60 + digitVal c2, rest2)] else []) ++
       (if ('0' ≤ c1 && c1 ≤ '5') && c2.isDigit then
          [(digitVal c1 * 10 + digitVal c2, rest2)] else [])
     | [] => []) ++
    (if c1.isDigit then [(digitVal c1, rest)] else [])

/-- Case-insensitive literal-word match returning the rest. -/
def stripWordCI (w : List Char) (cs : List Char) : Option (List Char) :=
  match w, cs with
  | [], rest => some rest
  | _ :: _, [] => none
  | a :: ws, c :: rest => if lowerChar c = a then stripWordCI ws rest else none

/-- English month abbreviations, regex alternation order used by
`_strptime` (all the same length, so the length-descending sort keeps
the original order). -/
def monthAbbrs : List (List Char × Nat) :=
  [("jan".toList, 1), ("feb".toList, 2), ("mar".toList, 3), ("apr".toList, 4),
   ("may".toList, 5), ("jun".toList, 6), ("jul".toList, 7), ("aug".toList, 8),
   ("sep".toList, 9), ("oct".toList, 10), ("nov".toList, 11), ("dec".toList, 12)]

/-- Full English month names sorted by length descending (stable), the
alternation order `_strptime` builds for `%B`. -/
def monthNames : List (List Char × Nat) :=
  [("september".toList, 9), ("february".toList, 2), ("november".toList, 11),
   ("december".toList, 12), ("january".toList, 1), ("october".toList, 10),
   ("august".toList, 8), ("march".toList, 3), ("april".toList, 4),
   ("june".toList, 6), ("july".toList, 7), ("may".toList, 5)]

def matchMonthWord (tbl : List (List Char × Nat)) (cs : List Char) : List (Nat × List Char) :=
  tbl.filterMap (fun p => (stripWordCI p.1 cs).map (fun rest => (p.2, rest)))

/-- Rests after consuming one or more whitespace characters, longest
consumption first (greedy `\s+`, which `_strptime` substitutes for any
whitespace in the format). -/
def wsSplits (cs : List Char) : List (List Char) :=
  let n := (cs.takeWhile pyIsWS).length
  (List.range n).map (fun k => cs.drop (n - k))

def matchDir : Dir → List Char → List (Nat × List Char)
  | .dY, cs => matchY cs
  | .dm, cs => matchm cs
  | .dd, cs => matchd cs
  | .dH, cs => matchH cs
  | .dM, cs => matchMin cs
  | .dS, cs => matchSec cs
  | .db, cs => matchMonthWord monthAbbrs cs
  | .dB, cs => matchMonthWord monthNames cs
  | .lit c, cs =>
    if c = ' ' then (wsSplits cs).map (fun r => (0, r))
    else match cs with
      | c2 :: rest => if c2 = c then [(0, rest)] else []
      | [] => []

def optFirst : List (Option α) → Option α
  | [] => none
  | some a :: _ => some a
  | none :: rest => optFirst rest

/-- Fuel-indexed body of the backtracking matcher (the fuel is only a
structural-recursion device; `runDirs` supplies enough of it). -/
def runDirsF : Nat → List Dir → List Char → Option (List (Dir × Nat) × List Char)
  | 0, _, _ => none
  | _ + 1, [], cs => some ([], cs)
  | fuel + 1, d :: ds, cs =>
    optFirst ((matchDir d cs).map (fun vr =>
      (runDirsF fuel ds vr.2).map (fun tl => ((d, vr.1) :: tl.1, tl.2))))

/-- Backtracking matcher: the first (regex-priority) match of the
directive list against a prefix of `cs`, returning the captured values
and the unconsumed rest. -/
def runDirs (l : List Dir) (cs : List Char) : Option (List (Dir × Nat) × List Char) :=
  runDirsF (l.length + 1) l cs

/-- A parsed calendar date (the `datetime.date` the source manipulates). -/
structure PDate where
  year : Nat
  month : Nat
  day : Nat
deriving DecidableEq, Repr

def isLeap (y : Nat) : Bool := (y % 4 = 0 && y % 100 ≠ 0) || y % 400 = 0

def daysInMonth (y m : Nat) : Nat :=
  if m = 2 then (if isLeap y then 29 else 28)
  else if m = 4 || m = 6 || m = 9 || m = 11 then 30 else 31

def dirsValue (res : List (Dir × Nat)) (d : Dir) : Option Nat :=
  (res.find? (fun p => p.1 == d)).map (·.2)

/-- One `datetime.strptime(s, fmt).date()` attempt: the first regex
match of the format must consume the whole input, and the calendar
date must be constructible (else `ValueError`, modelled as `none`).
Missing components default as in `_strptime`: year 1900, month 1, day 1. -/
def tryFormat (fmt : List Dir) (cs : List Char) : Option PDate :=
  match runDirs fmt cs with
  | none => none
  | some (res, rest) =>
    if rest ≠ [] then none
    else
      let y := (dirsValue res .dY).getD 1900
      let m := (dirsValue res .dm).getD ((dirsValue res .db).getD ((dirsValue res .dB).getD 1))
      let d := (dirsValue res .dd).getD 1
      if 1 ≤ y && y ≤ 9999 && 1 ≤ m && m ≤ 12 && 1 ≤ d && d ≤ daysInMonth y m then
        some ⟨y, m, d⟩
      else none

/-- The `formats` list of `parse_date`, in source order. -/
def pyFormats : List (List Dir) :=
  [ [.dd, .lit '/', .dm, .lit '/', .dY, .lit ' ', .dH, .lit ':', .dM],
    [.dd, .lit '/', .dm, .lit '/', .dY, .lit ' ', .dH, .lit ':', .dM, .lit ':', .dS],
    [.dY, .lit '-', .dm, .lit '-', .dd, .lit ' ', .dH, .lit ':', .dM],
    [.dY, .lit '-', .dm, .lit '-', .dd, .lit ' ', .dH, .lit ':', .dM, .lit ':', .dS],
    [.dd, .lit '/', .dm, .lit '/', .dY],
    [.dY, .lit '-', .dm, .lit '-', .dd],
    [.dm, .lit '/', .dd, .lit '/', .dY],
    [.dd, .lit '-', .dm, .lit '-', .dY],
    [.dY, .lit '/', .dm, .lit '/', .dd],
    [.dY, .dm, .dd],
    [.dd, .lit ' ', .db, .lit ' ', .dY],
    [.dd, .lit ' ', .dB, .lit ' ', .dY] ]

/-- Characters kept by the cleaning substitution of `parse_date`:
digits, colon, slash, space, hyphen. -/
def keepDateChar (c : Char) : Bool :=
  c.isDigit || c = ':' || c = '/' || c = ' ' || c = '-'

/-- `parse_date` (src/src/comparison.py, lines 30-52): clean the string,
replace `/` by `-`, keep the part before the first space, then try the
fixed format list in order; on total failure return an error echoing
the cleaned string. -/
def parse_date (date_str : String) : Option PDate × Option String :=
  let cleaned := pyStripL (date_str.toList.filter keepDateChar)
  let cleanDate := cleaned.map (fun c => if c = '/' then '-' else c)
  let datePart := if cleanDate.contains ' ' then cleanDate.takeWhile (· ≠ ' ') else cleanDate
  match optFirst (pyFormats.map (fun f => tryFormat f datePart)) with
  | some d => (some d, none)
  | none => (none, some ("Unrecognized format: " ++ String.mk cleanDate))

/-! ## The comparison engine (src/src/comparison.py) -/

/-- The `NA` constant of comparison.py. -/
def NA : String := "N/A"

/-- Python `dict.get` on a string-valued dict in insertion order. -/
def lookupD (d : List (String × String)) (k : String) : Option String :=
  (d.find? (fun p => p.1 == k)).map (·.2)

/-- The four data sources of a field comparison, in the fixed key order
of the dicts built by `compare_rvd_releve` / `compare_dates_with_releve`. -/
inductive Source where
  | rvd_original | rvd_releve | aed | image
deriving DecidableEq, BEq, Repr

def Source.idx : Source → Nat
  | .rvd_original => 0
  | .rvd_releve => 1
  | .aed => 2
  | .image => 3

def Source.sname : Source → String
  | .rvd_original => "rvd_original"
  | .rvd_releve => "rvd_releve"
  | .aed => "aed"
  | .image => "image"

def srcList : List Source := [.rvd_original, .rvd_releve, .aed, .image]

/-- The filter `v and v != NA` of comparison.py: a value participates in
normalization and pairwise comparison iff it is present (not `None`),
non-empty, and not the `"N/A"` sentinel. -/
def present (v : Option String) : Bool :=
  match v with
  | none => false
  | some s => !(s = "" || s = NA)

/-- Python `v or NA`: the displayed value, with falsy values replaced. -/
def orNA : Option String → String
  | none => NA
  | some s => if s = "" then NA else s

/-- A field-comparison dict: the four source values plus the
`match_<A>_<B>` keys. `matchKey s1 s2 = none` models the *absence* of
the key `match_<s1>_<s2>` (distinct from a present `false`). -/
structure FieldComparison where
  values : Source → String
  matchKey : Source → Source → Option Bool

/-- `compare_values` (comparison.py, lines 58-71), specialized to the
fixed four-source key set every call site uses: values displayed with
`or NA`; sources that pass the `v and v != NA` filter are normalized,
and one `match_<k1>_<k2>` key is emitted for every pair of such
sources in key order (`i < j`). -/
def compare_values (vals : Source → Option String) (normalizer : String → String) :
    FieldComparison where
  values s := orNA (vals s)
  matchKey s1 s2 :=
    if s1.idx < s2.idx && present (vals s1) && present (vals s2) then
      some (normalizer ((vals s1).getD "") == normalizer ((vals s2).getD ""))
    else none

/-- The four-key source dict `{rvd_original, rvd_releve, aed, image}`
shared by `compare_rvd_releve` and `compare_dates_with_releve`. -/
def srcVals (v0 v1 v2 v3 : Option String) : Source → Option String
  | .rvd_original => v0
  | .rvd_releve => v1
  | .aed => v2
  | .image => v3

/-- `compare_rvd_releve` (comparison.py, lines 73-81). -/
def compare_rvd_releve (rvd_original rvd_releve aed_val image_val : Option String)
    (normalizer : String → String) : FieldComparison :=
  compare_values (srcVals rvd_original rvd_releve aed_val image_val) normalizer

/-- A date-comparison dict: source values, per-source parse errors in
source order, and the `match_*` keys (again `none` = key absent). -/
structure DateComparison where
  values : Source → String
  errors : List String
  matchKey : Source → Source → Option Bool

/-- `compare_dates_with_releve` (comparison.py, lines 83-122): each
present source string is parsed with `parse_date` (errors collected);
`month_year_only` is set when *any* successfully parsed date has day 1;
match keys are emitted for ordered pairs of successfully parsed dates,
comparing year+month only when `month_year_only` holds, else full
dates. -/
def compare_dates_with_releve (rvd_orig_date rvd_releve_date aed_date img_date :
    Option String) : DateComparison :=
  let vals : Source → Option String := srcVals rvd_orig_date rvd_releve_date aed_date img_date
  let entry : Source → Option (Option PDate × Option String) := fun s =>
    match vals s with
    | none => none
    | some str => if str = "" || str = NA then none else some (parse_date str)
  let dates : Source → Option (Option PDate) := fun s => (entry s).map Prod.fst
  let month_year_only : Bool := srcList.any (fun s =>
    match dates s with
    | some (some d) => d.day == 1
    | _ => false)
  { values := fun s => orNA (vals s)
    errors := srcList.filterMap (fun s =>
      (entry s).bind (fun pe => pe.2.map (fun msg => s.sname ++ ": " ++ msg)))
    matchKey := fun s1 s2 =>
      match dates s1, dates s2 with
      | some (some d1), some (some d2) =>
        if s1.idx < s2.idx then
          some (if month_year_only then d1.year == d2.year && d1.month == d2.month
                else d1 = d2)
        else none
      | _, _ => none }

/-- Modelled from the spec: `normalize_serial` is imported from
`src/utils.py`, which is missing from `src/`. Per spec §4.2 the
normalizer case-folds and strips whitespace/punctuation noise, equality
being byte-equality of the normalized forms. Modelled as lowercasing
and keeping only alphanumeric characters. (No claim outcome depends
on the exact normal form.) -/
def normalize_serial (s : String) : String :=
  String.mk ((lowerStr s).toList.filter Char.isAlphanum)

/-- An entry of the processed-image list (dict with `type`, `serial`,
`date` keys, any of which may be missing). -/
structure ImageRec where
  type : Option String
  serial : Option String
  date : Option String

/-- `get_image_by_type` (comparison.py, lines 124-126). -/
def get_image_by_type (images : List ImageRec) (image_type : String) : Option ImageRec :=
  images.find? (fun img => img.type == some image_type)

/-- `get_dae_field` (comparison.py, lines 128-131): the session
`dae_type` is threaded explicitly as a parameter here. -/
def get_dae_field (dae_type : Option String) (aed : List (String × String))
    (field_g5 field_other : String) : Option String :=
  lookupD aed (if dae_type = some "G5" then field_g5 else field_other)

/-! ### Battery-level comparison -/

/-- Maximal digit prefix and the rest. -/
def takeDigits (cs : List Char) : List Char × List Char :=
  (cs.takeWhile Char.isDigit, cs.dropWhile Char.isDigit)

def digitsVal (ds : List Char) : Nat := ds.foldl (fun a c => a * 10 + digitVal c) 0

/-- An exact decimal number `num / 10 ^ exp` — the value of a Python
float parsed from a decimal string. (Exact rationals stand in for IEEE
doubles; every literal occurring in the documents and claims is exactly
representable.) -/
structure Dec where
  num : Int
  exp : Nat
deriving DecidableEq, Repr

/-- The rational value of a decimal. -/
def Dec.toRat (d : Dec) : ℚ := (d.num : ℚ) / (10 : ℚ) ^ d.exp

/-- Model of Python `float(str)` on the decimal forms occurring in the
documents: optional surrounding whitespace and sign, digits with an
optional fractional part (at least one digit overall), and an optional
exponent. (The `inf`/`nan` spellings and digit underscores are outside
the model.) `none` models the `ValueError` that the caller catches. -/
def pyFloat? (s : String) : Option Dec :=
  let cs := pyStripL s.toList
  let (sgn, cs) :=
    match cs with
    | '+' :: t => ((1 : Int), t)
    | '-' :: t => ((-1 : Int), t)
    | t => ((1 : Int), t)
  let (ip, cs) := takeDigits cs
  let (fp, cs) :=
    match cs with
    | '.' :: t => takeDigits t
    | t => ([], t)
  if ip = [] && fp = [] then none
  else
    let num : Int := sgn * (digitsVal (ip ++ fp) : Int)
    let k := fp.length
    match cs with
    | [] => some ⟨num, k⟩
    | 'e' :: t => pyFloatExp num k t
    | 'E' :: t => pyFloatExp num k t
    | _ => none
where
  pyFloatExp (num : Int) (k : Nat) (t : List Char) : Option Dec :=
    let (epos, t) :=
      match t with
      | '+' :: u => (true, u)
      | '-' :: u => (false, u)
      | u => (true, u)
    let (ed, t) := takeDigits t
    if ed = [] || t ≠ [] then none
    else
      let e := digitsVal ed
      if epos then
        if k ≤ e then some ⟨num * (10 : Int) ^ (e - k), 0⟩ else some ⟨num, k - e⟩
      else some ⟨num, k + e⟩

/-- `abs(r - a) <= 2` computed exactly on the decimal `r` and the
integer `a` (cross-multiplied by the positive denominator `10^r.exp`;
`withinTol2_iff` proves this equal to the rational-number statement). -/
def withinTol2 (r : Dec) (a : Nat) : Bool :=
  (r.num - (a : Int) * (10 : Int) ^ r.exp).natAbs ≤ 2 * 10 ^ r.exp

/-- `BATTERY_LEVEL_PATTERN.search`: the first maximal digit run. -/
def firstDigitRun (cs : List Char) : Option (List Char) :=
  match cs.dropWhile (fun c => !c.isDigit) with
  | [] => none
  | rest => some (rest.takeWhile Char.isDigit)

/-- `str(e)` for the `ValueError` of a failed `float(...)`. -/
def floatErrMsg (s : String) : String :=
  "could not convert string to float: " ++ "\x27" ++ s ++ "\x27"

/-- The battery-comparison result dict. `isMatch` models the `match`
key; `rvd`/`aed` hold the numeric values displayed as `f"{x}%"`;
`error` models the `error` key (absent = `none`). -/
structure BatteryResult where
  isMatch : Bool
  rvd : Option Dec
  aed : Option Nat
  error : Option String
deriving DecidableEq, Repr

/-- `compare_battery_level` (comparison.py, lines 133-167): the RVD
percentage is `float`-converted (a failure is the caught `ValueError`);
the device-side text (field name selected by the session `dae_type`) is
searched for its first digit run; the match flag is
`|rvd - aed| <= 2`. Missing or unusable data on either side records an
explicit error message and leaves the flag `False`. -/
def compare_battery_level (dae_type : Option String) (rvd aed : List (String × String)) :
    BatteryResult :=
  match lookupD rvd "Niveau de charge de la batterie en %" with
  | none => { isMatch := false, rvd := none, aed := none, error := some "Missing RVD battery data" }
  | some s =>
    if s = "" || s = NA then
      { isMatch := false, rvd := none, aed := none, error := some "Missing RVD battery data" }
    else
      match pyFloat? s with
      | none => { isMatch := false, rvd := none, aed := none, error := some (floatErrMsg s) }
      | some rvdBatt =>
        match lookupD aed (if dae_type = some "G5" then "Capacité restante de la batterie"
                           else "Capacité restante de la batterie 12V") with
        | none =>
          { isMatch := false, rvd := some rvdBatt, aed := none,
            error := some "Missing AED battery data" }
        | some t =>
          if t = "" || t = NA then
            { isMatch := false, rvd := some rvdBatt, aed := none,
              error := some "Missing AED battery data" }
          else
            match firstDigitRun t.toList with
            | none =>
              { isMatch := false, rvd := some rvdBatt, aed := none,
                error := some "Cannot extract battery level from AED data" }
            | some ds =>
              let aedBatt : Nat := digitsVal ds
              { isMatch := withinTol2 rvdBatt aedBatt,
                rvd := some rvdBatt, aed := some aedBatt, error := none }

/-! ### Sections and the top-level engine -/

/-- One electrode sub-result (`Numéro_de_série` / `date_de_péremption`
keys of the dict built by `compare_electrodes_section`). -/
structure ElectrodeSub where
  numero_de_serie : FieldComparison
  date_de_peremption : DateComparison

/-- `compare_electrodes_section` (comparison.py, lines 169-200). -/
def compare_electrodes_section (rvd : List (String × String)) (images : List ImageRec)
    (section_type : String) : ElectrodeSub :=
  let image := get_image_by_type images "Electrodes"
  let pre := if section_type = "adultes" then "ADULTES" else "PEDIATRIQUES"
  { numero_de_serie := compare_rvd_releve
      (lookupD rvd ("Numéro de série ELECTRODES " ++ pre))
      (lookupD rvd ("Numéro de série ELECTRODES " ++ pre ++ " relevé"))
      none
      (image.bind (·.serial))
      normalize_serial
    date_de_peremption := compare_dates_with_releve
      (lookupD rvd ("Date de péremption ELECTRODES " ++ pre))
      (lookupD rvd ("Date de péremption ELECTRODES " ++ pre ++ " relevée"))
      none
      (image.bind (·.date)) }

/-- The `defibrillateur` section dict. -/
structure DefibResult where
  numero_de_serie : FieldComparison
  date_de_fabrication : DateComparison
  date_de_rapport : DateComparison

/-- The `batterie` section dict. -/
structure BattResult where
  numero_de_serie : FieldComparison
  date_de_fabrication : DateComparison
  installation_date : DateComparison
  battery_level : BatteryResult

/-- The `electrodes` section dict; `pediatriques = none` models the
empty dict `{}` recorded when pediatric electrodes were not changed. -/
structure ElectrodesResult where
  adultes : ElectrodeSub
  pediatriques : Option ElectrodeSub

/-- A section result: one of the three section dicts, or the empty dict
`{}` that `compare_section` returns for an unknown section name (also
used as the per-section placeholder of a failed run). -/
inductive SectionOut where
  | defib (r : DefibResult)
  | batt (r : BattResult)
  | elec (r : ElectrodesResult)
  | empty

/-- `compare_section` (comparison.py, lines 202-270); the session
`dae_type` is threaded explicitly. -/
def compare_section (dae_type : Option String) (sec : String)
    (rvd aed : List (String × String)) (images : List ImageRec) : SectionOut :=
  if sec = "defibrillateur" then
    let image := get_image_by_type images "Defibrillateur G5"
    .defib
      { numero_de_serie := compare_rvd_releve
          (lookupD rvd "Numéro de série DEFIBRILLATEUR")
          (lookupD rvd "Numéro de série relevé")
          (get_dae_field dae_type aed "N° série DAE" "Série DSA")
          (image.bind (·.serial))
          normalize_serial
        date_de_fabrication := compare_dates_with_releve
          (lookupD rvd "Date fabrication DEFIBRILLATEUR")
          (lookupD rvd "Date fabrication relevée")
          none
          (image.bind (·.date))
        date_de_rapport := compare_dates_with_releve
          (lookupD rvd "Date-Heure rapport vérification défibrillateur")
          none
          (get_dae_field dae_type aed "Date / Heure:" "Date de mise en service")
          none }
  else if sec = "batterie" then
    let image := get_image_by_type images "Batterie"
    let battery_serial_field :=
      if lookupD rvd "Changement batterie" = some "Non" then "Numéro de série Batterie"
      else "N° série nouvelle batterie"
    .batt
      { numero_de_serie := compare_rvd_releve
          (lookupD rvd battery_serial_field)
          (lookupD rvd "Numéro de série relevé 2")
          none
          (image.bind (·.serial))
          normalize_serial
        date_de_fabrication := compare_dates_with_releve
          (lookupD rvd "Date fabrication BATTERIE")
          (lookupD rvd "Date fabrication BATTERIE relevée")
          none
          (image.bind (·.date))
        installation_date := compare_dates_with_releve
          (lookupD rvd "Date mise en service BATTERIE")
          (lookupD rvd "Date mise en service BATTERIE relevée")
          (get_dae_field dae_type aed "Date d\x27installation :" "Date de mise en service batterie")
          none
        battery_level := compare_battery_level dae_type rvd aed }
  else if sec = "electrodes" then
    .elec
      { adultes := compare_electrodes_section rvd images "adultes"
        pediatriques :=
          if lookupD rvd "Changement électrodes pédiatriques" = some "Oui" then
            some (compare_electrodes_section rvd images "pediatriques")
          else none }
  else .empty

/-- The engine output dict `{"defibrillateur": …, "batterie": …,
"electrodes": …}`. -/
structure ComparisonRun where
  defibrillateur : SectionOut
  batterie : SectionOut
  electrodes : SectionOut

/-- The placeholder result `{"defibrillateur": {}, "batterie": {},
"electrodes": {}}` from the failure paths of `compare_data`. -/
def emptyRun : ComparisonRun := ⟨.empty, .empty, .empty⟩

/-- `st.session_state.processed_data`: the keys `compare_data`
consults. A missing key is `none`; `RVD = some []` models an empty
(falsy) RVD dict. `comparisons` holds the output stored by a previous
run. -/
structure ProcessedData where
  RVD : Option (List (String × String))
  AEDG3 : Option (List (String × String))
  AEDG5 : Option (List (String × String))
  images : Option (List ImageRec)
  comparisons : Option ComparisonRun

/-- `processed_data.get(aed_type, {})` for the dynamically built key
`"AEDG" + dae_type[-1]` (any other key is absent, yielding the
default). -/
def pdGetAed (pd : ProcessedData) (key : String) : Option (List (String × String)) :=
  if key = "AEDG3" then pd.AEDG3 else if key = "AEDG5" then pd.AEDG5 else none

/-- The slice of `st.session_state` that `compare_data` reads and
writes. -/
structure SessionState where
  dae_type : Option String
  processed_data : ProcessedData

/-- `compare_data` (comparison.py, lines 272-298), with the ambient
`st.session_state` threaded explicitly: returns the updated session
state, the result structure, and the list of `st.error` messages.
`none` models the uncaught `IndexError` of `dae_type[-1]` when
`dae_type` is the empty string (the source indexes it before checking
the RVD). -/
def compare_data (st : SessionState) : Option (SessionState × ComparisonRun × List String) :=
  match st.dae_type with
  | none => some (st, emptyRun, ["Type de DAE non défini dans session_state"])
  | some dt =>
    match dt.toList.getLast? with
    | none => none
    | some c =>
      let aed_type := "AEDG" ++ String.singleton c
      if (st.processed_data.RVD.getD []) = [] then
        some (st, emptyRun, ["Données RVD manquantes pour la comparaison"])
      else
        let rvd := st.processed_data.RVD.getD []
        let aed := (pdGetAed st.processed_data aed_type).getD []
        let images := st.processed_data.images.getD []
        let run : ComparisonRun :=
          { defibrillateur := compare_section st.dae_type "defibrillateur" rvd aed images
            batterie := compare_section st.dae_type "batterie" rvd aed images
            electrodes := compare_section st.dae_type "electrodes" rvd aed images }
        some ({ st with processed_data := { st.processed_data with comparisons := some run } },
              run, [])

/-! ## A small regular-expression engine

Just enough of Python `re` for the fixed patterns of
src/src/extraction.py: literals (case-sensitive or not), character
classes, greedy star/plus/option with backtracking, fixed repetition,
alternation, lookahead, `$`, and numbered capture groups.  Matching
returns the candidate `(captures, rest)` pairs in the backtracking
priority order of the Python engine; `search` takes the leftmost match. -/

/-- The character classes occurring in the source patterns. -/
inductive CharCls where
  | digit
  | ws
  | wordc
  | notNl
  | alnumHyphen
  | wsColon
  | alnum
  | oneOf (l : List Char)
  | one (c : Char)
deriving DecidableEq, Repr

def CharCls.holds : CharCls → Char → Bool
  | .digit, c => c.isDigit
  | .ws, c => pyIsWS c
  | .wordc, c => c.isAlphanum || c = '_'
  | .notNl, c => c ≠ '\n'
  | .alnumHyphen, c => c.isAlphanum || c = '-'
  | .wsColon, c => pyIsWS c || c = ':'
  | .alnum, c => c.isAlphanum
  | .oneOf l, c => l.contains c
  | .one c0, c => c = c0

inductive RE where
  | eps
  | cls (p : CharCls)
  | lit (s : String)
  | litCI (s : String)
  | seq (a b : RE)
  | alt (a b : RE)
  | star (p : CharCls)
  | plus (p : CharCls)
  | rep (n : Nat) (p : CharCls)
  | opt (r : RE)
  | look (r : RE)
  | grp (i : Nat) (r : RE)
  | eos
deriving Repr

def reSeq : List RE → RE
  | [] => .eps
  | [r] => r
  | r :: rest => .seq r (reSeq rest)

/-- Structural size, used as recursion fuel for the matcher. -/
def RE.depth : RE → Nat
  | .seq a b => a.depth + b.depth + 1
  | .alt a b => a.depth + b.depth + 1
  | .opt r => r.depth + 1
  | .look r => r.depth + 1
  | .grp _ r => r.depth + 1
  | _ => 1

/-- Case-sensitive literal prefix strip. -/
def stripLit : List Char → List Char → Option (List Char)
  | [], rest => some rest
  | _ :: _, [] => none
  | a :: t, c :: rest => if c = a then stripLit t rest else none

/-- Case-insensitive literal prefix strip (`re.IGNORECASE`). -/
def stripLitCI : List Char → List Char → Option (List Char)
  | [], rest => some rest
  | _ :: _, [] => none
  | a :: t, c :: rest => if lowerChar c = lowerChar a then stripLitCI t rest else none

/-- Rests after consuming `n`, `n-1`, …, `0` class characters (greedy
star, longest consumption first). -/
def clsStarSplits (p : CharCls) (cs : List Char) : List (List Char) :=
  let n := (cs.takeWhile p.holds).length
  (List.range (n + 1)).map (fun k => cs.drop (n - k))

/-- As `clsStarSplits` but at least one character (greedy plus). -/
def clsPlusSplits (p : CharCls) (cs : List Char) : List (List Char) :=
  let n := (cs.takeWhile p.holds).length
  (List.range n).map (fun k => cs.drop (n - k))

/-- The matcher body; the fuel is a structural-recursion device,
`runRE` supplies `RE.depth`, which every nested call respects. -/
def runREF : Nat → RE → List Char → List (List (Nat × List Char) × List Char)
  | 0, _, _ => []
  | _ + 1, .eps, cs => [([], cs)]
  | _ + 1, .cls p, cs =>
    match cs with
    | c :: t => if p.holds c then [([], t)] else []
    | [] => []
  | _ + 1, .lit s, cs =>
    match stripLit s.toList cs with
    | some rest => [([], rest)]
    | none => []
  | _ + 1, .litCI s, cs =>
    match stripLitCI s.toList cs with
    | some rest => [([], rest)]
    | none => []
  | f + 1, .seq a b, cs =>
    (runREF f a cs).flatMap (fun pr =>
      (runREF f b pr.2).map (fun pr2 => (pr.1 ++ pr2.1, pr2.2)))
  | f + 1, .alt a b, cs => runREF f a cs ++ runREF f b cs
  | _ + 1, .star p, cs => (clsStarSplits p cs).map (fun r => ([], r))
  | _ + 1, .plus p, cs => (clsPlusSplits p cs).map (fun r => ([], r))
  | _ + 1, .rep n p, cs =>
    let tk := cs.take n
    if tk.length = n && tk.all p.holds then [([], cs.drop n)] else []
  | f + 1, .opt r, cs => runREF f r cs ++ [([], cs)]
  | f + 1, .look r, cs => if (runREF f r cs).isEmpty then [] else [([], cs)]
  | f + 1, .grp i r, cs =>
    (runREF f r cs).map (fun pr => ((i, cs.take (cs.length - pr.2.length)) :: pr.1, pr.2))
  | _ + 1, .eos, cs => if cs = [] || cs = ['\n'] then [([], cs)] else []

def runRE (r : RE) (cs : List Char) : List (List (Nat × List Char) × List Char) :=
  runREF r.depth r cs

/-- `re.search` from position `i`: the leftmost match, with its start
index, captures, and the rest after the match. -/
def reSearchFrom (r : RE) : List Char → Nat → Option (Nat × (List (Nat × List Char) × List Char))
  | cs, i =>
    match runRE r cs with
    | pr :: _ => some (i, pr)
    | [] =>
      match cs with
      | [] => none
      | _ :: tl => reSearchFrom r tl (i + 1)

def lookupCap (caps : List (Nat × List Char)) (i : Nat) : Option String :=
  (caps.find? (fun p => p.1 == i)).map (fun p => String.mk p.2)

/-- `match.group(1)` of the leftmost match, `none` when there is no
match. -/
def reGroup1 (r : RE) (s : String) : Option String :=
  (reSearchFrom r s.toList 0).bind (fun t => lookupCap t.2.1 1)

/-- The text consumed by the leftmost match (`match.group(0)`). -/
def reMatchedText (r : RE) (s : String) : String :=
  match reSearchFrom r s.toList 0 with
  | some (i, (_, rest)) =>
    String.mk ((s.toList.drop i).take (s.toList.length - i - rest.length))
  | none => ""

/-- `re.findall`, non-overlapping successive leftmost matches (a
zero-width match advances by one character, as in Python). -/
def reFindAllF : Nat → RE → List Char → List (List (Nat × List Char))
  | 0, _, _ => []
  | f + 1, r, cs =>
    match reSearchFrom r cs 0 with
    | none => []
    | some (i, (caps, rest)) =>
      if rest.length < cs.length - i then caps :: reFindAllF f r rest
      else caps :: reFindAllF f r (cs.drop (i + 1))

def reFindAll (r : RE) (s : String) : List (List (Nat × List Char)) :=
  reFindAllF (s.toList.length + 1) r s.toList

/-! ## `extract_rvd_data` (src/src/extraction.py, lines 11-103) -/

/-- The RVD keyword registry, in source order. -/
def rvdKeywords : List String :=
  [ "Commentaire fin d\x27intervention et recommandations",
    "Date-Heure rapport vérification défibrillateur",
    "Code du site",
    "Numéro de série DEFIBRILLATEUR",
    "Numéro de série relevé",
    "Date fabrication DEFIBRILLATEUR",
    "Date fabrication relevée",
    "Numéro de série Batterie",
    "Numéro de série relevé 2",
    "Date fabrication BATTERIE",
    "Date fabrication BATTERIE relevée",
    "Date mise en service BATTERIE",
    "Date mise en service BATTERIE relevée",
    "Niveau de charge de la batterie en %",
    "Changement batterie",
    "N° série nouvelle batterie",
    "Date mise en service",
    "Date de mise en service de la nouvelle batterie",
    "Date fabrication nouvelle batterie",
    "Niveau de charge nouvelle batterie",
    "Numéro de série ELECTRODES ADULTES",
    "Numéro de série ELECTRODES ADULTES relevé",
    "Date de péremption ELECTRODES ADULTES",
    "Date de péremption ELECTRODES ADULTES relevée",
    "Changement électrodes adultes",
    "N° série nouvelles électrodes",
    "Date péremption des nouvelles éléctrodes",
    "Numéro de série ELECTRODES PEDIATRIQUES",
    "Numéro de série ELECTRODES PEDIATRIQUES relevé",
    "Date de péremption ELECTRODES PEDIATRIQUES",
    "Date de péremption ELECTRODES PEDIATRIQUES relevée" ]

/-- `a` is a contiguous substring of `b` (Python `in`). -/
def subIn (needle hay : List Char) : Bool :=
  if (stripLit needle hay).isSome then true
  else
    match hay with
    | [] => false
    | _ :: tl => subIn needle tl

/-- The serial-keyword test
`any(x in keyword.lower() for x in ["n° série", "numéro de série"])`. -/
def isSerialKw (kw : String) : Bool :=
  subIn "n° série".toList (lowerStr kw).toList ||
  subIn "numéro de série".toList (lowerStr kw).toList

/-- `re.escape(keyword) + r"[\s:]*([A-Za-z0-9\-]+)(?=\s|$)"`, with
`re.IGNORECASE`. -/
def serialPat (kw : String) : RE :=
  reSeq [.litCI kw, .star .wsColon, .grp 1 (.plus .alnumHyphen), .look (.alt (.cls .ws) .eos)]

/-- `r"Code site\s+([A-Z0-9]+)"` with `re.IGNORECASE` (the flag makes
the class match both cases). -/
def codeSitePat : RE := reSeq [.litCI "Code site", .plus .ws, .grp 1 (.plus .alnum)]

/-- `re.escape(keyword) + r"[\s:]*([^\n]*)"` (case-sensitive). -/
def genericPat (kw : String) : RE :=
  reSeq [.lit kw, .star .wsColon, .grp 1 (.star .notNl)]

/-- The per-keyword pattern choice of the extraction loop. -/
def kwPatternRVD (kw : String) : RE :=
  if isSerialKw kw then serialPat kw
  else if lowerStr kw = "code site" then codeSitePat
  else genericPat kw

/-- The pattern of two digits, slash-or-hyphen, two digits,
slash-or-hyphen, four digits (the date shape the source searches). -/
def dateShortPat : RE :=
  reSeq [.rep 2 .digit, .cls (.oneOf ['/', '-']), .rep 2 .digit,
         .cls (.oneOf ['/', '-']), .rep 4 .digit]

/-- The same date shape with an optional `HH:MM` time suffix. -/
def dateTimePat : RE :=
  reSeq [.rep 2 .digit, .cls (.oneOf ['/', '-']), .rep 2 .digit,
         .cls (.oneOf ['/', '-']), .rep 4 .digit,
         .opt (reSeq [.plus .ws, .rep 2 .digit, .cls (.one ':'), .rep 2 .digit])]

/-- The administrative-suffix pattern: optional whitespace, then
`Vérification` or `Validation`, then everything to the end.  In
`re.sub` the leftmost match runs to the end of the (newline-free)
value, so substitution truncates at the match start. -/
def adminPat : RE := .seq (.star .ws) (.alt (.lit "Vérification") (.lit "Validation"))

def pySubAdmin (v : String) : String :=
  match reSearchFrom adminPat v.toList 0 with
  | some (i, _) => String.mk (v.toList.take i)
  | none => v

/-- `startswith` on lowered strings. -/
def startsWithCI (line kw : String) : Bool :=
  (stripLit (lowerStr kw).toList (lowerStr line).toList).isSome

/-- `kw.lower() in next_line.lower()` for any registry keyword. -/
def anyKeywordInLine (line : String) : Bool :=
  rvdKeywords.any (fun kw => subIn (lowerStr kw).toList (lowerStr line).toList)

/-- `get_next_valid_line` (extraction.py, lines 18-24): the next line,
stripped, provided it is non-empty and does not contain a registered
keyword. -/
def get_next_valid_line (rest : List String) : String :=
  match rest with
  | [] => ""
  | nl :: _ =>
    let s := pyStrip nl
    if s ≠ "" && !anyKeywordInLine s then s else ""

/-- `value.split()[0]` on the non-empty serial value. -/
def firstToken (v : String) : String :=
  String.mk ((pyStripL v.toList).takeWhile (fun c => !pyIsWS c))

/-- The per-keyword line scan of `extract_rvd_data` (lines 76-92): stop
at the first line whose stripped form starts with the keyword
(case-insensitively); take the pattern group there, or fall back to
the next valid line; the dead `"code site"` branch searches every
line. -/
def scanLines (kw : String) : List String → String
  | [] => ""
  | l :: rest =>
    let stripped := pyStrip l
    if startsWithCI stripped kw then
      match reGroup1 (kwPatternRVD kw) stripped with
      | some g =>
        let v := pyStrip g
        if isSerialKw kw then firstToken v else v
      | none => get_next_valid_line rest
    else if lowerStr kw = "code site" then
      match reGroup1 (kwPatternRVD kw) stripped with
      | some g => g
      | none => scanLines kw rest
    else scanLines kw rest

/-- The post-processing block of `extract_rvd_data` (lines 94-99):
strip administrative suffixes, then re-extract a date for date-like
keywords or keep only digits and dots for the percentage keyword. -/
def postProcessRVD (kw v : String) : String :=
  if v = "" then v
  else
    let v := pySubAdmin v
    if subIn "date".toList (lowerStr kw).toList &&
        (reSearchFrom dateShortPat v.toList 0).isSome then
      reMatchedText dateTimePat v
    else if subIn "%".toList kw.toList then
      String.mk (v.toList.filter (fun c => c.isDigit || c = '.'))
    else v

/-- `extract_rvd_data` (extraction.py, lines 11-103): one entry per
registry keyword, in registry order; a keyword never found yields the
empty string. -/
def extract_rvd_data (text : String) : List (String × String) :=
  let lines := pySplitlines text
  rvdKeywords.map (fun kw => (kw, postProcessRVD kw (scanLines kw lines)))

/-! ## `extract_aed_g3_data` (src/src/extraction.py, lines 148-235) -/

/-- A value of the G3 result dict: a string, or the list of
`(timestamp, code)` pairs stored under `errors`. -/
inductive PyVal where
  | str (s : String)
  | pairs (l : List (String × String))
deriving DecidableEq, Repr

def lookupG3 (d : List (String × PyVal)) (k : String) : Option PyVal :=
  (d.find? (fun p => p.1 == k)).map (·.2)

/-- The G3 keyword table (key = pattern base for every entry). -/
def g3Keywords : List String :=
  ["Série DSA", "Dernier échec de DSA", "Numéro de lot", "Date de mise en service", "Autotest"]

/-- The G3 keyword pattern: the escaped base, optional whitespace, a
colon, optional whitespace, then the rest of the line (captured,
non-empty). -/
def kwPatternG3 (base : String) : RE :=
  reSeq [.lit base, .star .ws, .cls (.one ':'), .star .ws, .grp 1 (.plus .notNl)]

/-- `DD/MM/YYYY` with slashes (the shape in the G3 error log). -/
def slashDatePat : RE :=
  reSeq [.rep 2 .digit, .cls (.one '/'), .rep 2 .digit, .cls (.one '/'), .rep 4 .digit]

/-- `HH:MM:SS`. -/
def hmsPat : RE :=
  reSeq [.rep 2 .digit, .cls (.one ':'), .rep 2 .digit, .cls (.one ':'), .rep 2 .digit]

/-- `r"Capacité initiale de la batterie 12V\s*:\s*(\d+)\s*mAh"`. -/
def capInitPat : RE :=
  reSeq [.lit "Capacité initiale de la batterie 12V", .star .ws, .cls (.one ':'),
         .star .ws, .grp 1 (.plus .digit), .star .ws, .lit "mAh"]

/-- `r"Capacité restante de la batterie 12V\s*:\s*(\d+)\s*mAh"`. -/
def capRemPat : RE :=
  reSeq [.lit "Capacité restante de la batterie 12V", .star .ws, .cls (.one ':'),
         .star .ws, .grp 1 (.plus .digit), .star .ws, .lit "mAh"]

/-- `r"(Code d\x27erreur \w+)\s+(\d{2}/\d{2}/\d{4})\s+(\d{2}:\d{2}:\d{2})"`. -/
def errG3Pat : RE :=
  reSeq [.grp 1 (.seq (.lit "Code d\x27erreur ") (.plus .wordc)),
         .plus .ws, .grp 2 slashDatePat, .plus .ws, .grp 3 hmsPat]

/-- `r"Aucune erreur trouvée\s*(\d{2}/\d{2}/\d{4})\s+(\d{2}:\d{2}:\d{2})"`. -/
def aucunePat : RE :=
  reSeq [.lit "Aucune erreur trouvée", .star .ws, .grp 1 slashDatePat,
         .plus .ws, .grp 2 hmsPat]

/-- One keyword extraction with the two format-specific transforms
(drop a leading zero from the DSA serial; insert a hyphen after the
fifth character of the lot number); an unmatched keyword yields "". -/
def g3KeywordValue (text key : String) : String :=
  match reGroup1 (kwPatternG3 key) text with
  | some g =>
    let v := pyStrip g
    let v := if key = "Série DSA" && v.toList.head? = some '0'
             then String.mk v.toList.tail else v
    if key = "Numéro de lot" && 5 < v.length
    then String.mk (v.toList.take 5 ++ '-' :: v.toList.drop 5) else v
  | none => ""

/-- Round-half-even of `p / q` (`q > 0`), the rounding of the Python
`"%.2f"`-style formatting applied to the exact ratio. -/
def roundHalfEven (p q : Nat) : Nat :=
  let d := p / q
  let r := p % q
  if q < 2 * r then d + 1
  else if 2 * r < q then d
  else if d % 2 = 0 then d else d + 1

def natToStrAux : Nat → Nat → List Char
  | 0, _ => []
  | _ + 1, 0 => []
  | f + 1, n => natToStrAux f (n / 10) ++ [Char.ofNat (48 + n % 10)]

def natToStr (n : Nat) : String :=
  if n = 0 then "0" else String.mk (natToStrAux (n + 1) n)

/-- Two-decimal formatting of the nonnegative exact ratio `p / q`,
rounded half-to-even (the format applied to the derived values). -/
def fmt2 (p q : Nat) : String :=
  let n := roundHalfEven (p * 100) q
  natToStr (n / 100) ++ "." ++ (if n % 100 < 10 then "0" else "") ++ natToStr (n % 100)

/-- The errors extracted from the G3 log, already reordered to
pairs of a date-time string and a code, as the source stores them. -/
def g3Errors (text : String) : List (String × String) :=
  (reFindAll errG3Pat text).filterMap (fun caps =>
    match lookupCap caps 1, lookupCap caps 2, lookupCap caps 3 with
    | some code, some date, some time => some (date ++ " " ++ time, code)
    | _, _, _ => none)

/-- The `Date installation` value: the *last* `(date, time)` pair
following the boilerplate phrase, or "". -/
def g3InstallDate (text : String) : String :=
  let found := (reFindAll aucunePat text).filterMap (fun caps =>
    match lookupCap caps 1, lookupCap caps 2 with
    | some date, some time => some (date, time)
    | _, _ => none)
  match found.getLast? with
  | some (date, time) => date ++ " " ++ time
  | none => ""

/-- The body of the `try:` block of `extract_aed_g3_data`.  The only
statement in it that can raise is the percentage derivation
`remaining/initial * 100`, which raises `ZeroDivisionError` when the
initial capacity reads 0; the result-dict entries are produced in the
insertion order of the source. -/
def extract_g3_body (text : String) : Except String (List (String × PyVal)) :=
  let kwResults := g3Keywords.map (fun k => (k, PyVal.str (g3KeywordValue text k)))
  let tailFields : List (String × PyVal) :=
    [("errors", PyVal.pairs (g3Errors text)),
     ("Date installation", PyVal.str (g3InstallDate text))]
  match reGroup1 capInitPat text, reGroup1 capRemPat text with
  | some iStr, some rStr =>
    let initial := digitsVal iStr.toList
    let remaining := digitsVal rStr.toList
    if initial = 0 then .error "float division by zero"
    else
      .ok (kwResults ++
        [("Capacité initiale de la batterie", PyVal.str (fmt2 initial 625 ++ " V")),
         ("Capacité restante de la batterie", PyVal.str (fmt2 remaining 625 ++ " V")),
         ("Pourcentage de la batterie", PyVal.str (fmt2 (remaining * 100) initial ++ " %"))] ++
        tailFields)
  | _, _ =>
    .ok (kwResults ++
      [("Capacité initiale de la batterie", PyVal.str ""),
       ("Capacité restante de la batterie", PyVal.str ""),
       ("Pourcentage de la batterie", PyVal.str "")] ++
      tailFields)

/-- `extract_aed_g3_data` (extraction.py, lines 148-235): the whole
body runs inside `try: … except Exception as e:`; an exception becomes
the single-key error map `{"erreur": str(e)}`. -/
def extract_aed_g3_data (text : String) : List (String × PyVal) :=
  match extract_g3_body text with
  | .ok r => r
  | .error e => [("erreur", PyVal.str e)]

/-- Projection of the `electrodes` alternative of a section result. -/
def SectionOut.elec? : SectionOut → Option ElectrodesResult
  | .elec e => some e
  | _ => none

/-- A session state with the RVD document absent. -/
def c5state : SessionState :=
  { dae_type := some "G5"
    processed_data :=
      { RVD := none, AEDG3 := none, AEDG5 := none, images := none, comparisons := none } }

/-- A fully populated session state with no stored comparisons. -/
def sampleState : SessionState :=
  { dae_type := some "G5"
    processed_data :=
      { RVD := some [("Numéro de série DEFIBRILLATEUR", "X1")]
        AEDG3 := none, AEDG5 := none, images := none, comparisons := none } }

/-- `sampleState` with a previous run already stored under
`comparisons` (its only difference from `sampleState`). -/
def sampleStateB : SessionState :=
  { sampleState with
    processed_data := { sampleState.processed_data with comparisons := some emptyRun } }

/-! ## Helper lemmas -/

/-- The exact cross-multiplied tolerance test agrees with the rational
statement `abs (r - a) <= 2`. -/
theorem withinTol2_iff (r : Dec) (a : Nat) :
    withinTol2 r a = true ↔ |r.toRat - (a : ℚ)| ≤ 2 := by
  have hpos : (0 : ℚ) < (10 : ℚ) ^ r.exp := by positivity
  have hsub : r.toRat - (a : ℚ)
      = ((r.num - (a : ℤ) * (10 : ℤ) ^ r.exp : ℤ) : ℚ) / (10 : ℚ) ^ r.exp := by
    unfold Dec.toRat
    push_cast
    field_simp
    ring
  simp only [withinTol2, decide_eq_true_eq]
  rw [hsub, abs_div, abs_of_pos hpos, div_le_iff₀ hpos, ← Int.cast_abs, Int.abs_eq_natAbs]
  constructor
  · intro h
    exact_mod_cast h
  · intro h
    exact_mod_cast h

/-- In the fully successful path, `compare_battery_level` records both
values, no error, and the tolerance flag. -/
theorem compare_battery_level_success (dae : Option String)
    (rvd aed : List (String × String)) {s t : String} {r : Dec} {ds : List Char}
    (hs : lookupD rvd "Niveau de charge de la batterie en %" = some s)
    (hs1 : s ≠ "") (hs2 : s ≠ NA)
    (hr : pyFloat? s = some r)
    (ht : lookupD aed (if dae = some "G5" then "Capacité restante de la batterie"
                       else "Capacité restante de la batterie 12V") = some t)
    (ht1 : t ≠ "") (ht2 : t ≠ NA)
    (hds : firstDigitRun t.toList = some ds) :
    compare_battery_level dae rvd aed =
      { isMatch := withinTol2 r (digitsVal ds), rvd := some r,
        aed := some (digitsVal ds), error := none } := by
  have h1 : (decide (s = "") || decide (s = NA)) = false := by simp [hs1, hs2]
  have h2 : (decide (t = "") || decide (t = NA)) = false := by simp [ht1, ht2]
  simp only [compare_battery_level, hs, h1, hr, ht, h2, hds, Bool.false_eq_true, if_false]

/-- Looking a member key up in a keyword-indexed map of a keyword list
finds its computed value. -/
theorem lookupD_map_self (l : List String) (f : String → String) (k : String) (h : k ∈ l) :
    lookupD (l.map (fun kw => (kw, f kw))) k = some (f k) := by
  induction l with
  | nil => cases h
  | cons a t ih =>
    by_cases hk : a = k
    · subst hk
      rw [List.map_cons, lookupD, List.find?_cons_of_pos _ (by simp)]
      rfl
    · rcases List.mem_cons.mp h with h1 | h1
      · exact absurd h1.symm hk
      · rw [List.map_cons, lookupD, List.find?_cons_of_neg _ (by simp [hk])]
        exact ih h1

/-- If no line starts (case-insensitively) with the keyword, and the
keyword is not the dead `"code site"` special case, the line scan of
`extract_rvd_data` comes back empty. -/
theorem scanLines_absent {kw : String} (hcs : lowerStr kw ≠ "code site")
    (lines : List String) (h : ∀ l ∈ lines, startsWithCI (pyStrip l) kw = false) :
    scanLines kw lines = "" := by
  induction lines with
  | nil => rfl
  | cons a t ih =>
    unfold scanLines
    dsimp only
    rw [h a (List.mem_cons_self a t)]
    simp only [Bool.false_eq_true, if_false]
    rw [if_neg hcs]
    exact ih (fun l hl => h l (List.mem_cons_of_mem a hl))

/-! ## Claim theorems -/

/-- **C2.** For every RVD battery-level value `r` and device
battery-level value `a` that both parse, `compare_battery_level`
records `match = true` iff `|r - a| ≤ 2` absolute percentage points
(and no error); the boundary difference of exactly 2.0 yields `true`
and 2.01 yields `false`; and a missing or unparsable value on either
side records an explicit error message with the flag left `false`. -/
theorem claim_C2_battery_tolerance :
    (∀ (dae : Option String) (rvd aed : List (String × String)) (s t : String) (r : Dec)
        (ds : List Char),
      lookupD rvd "Niveau de charge de la batterie en %" = some s → s ≠ "" → s ≠ NA →
      pyFloat? s = some r →
      lookupD aed (if dae = some "G5" then "Capacité restante de la batterie"
                   else "Capacité restante de la batterie 12V") = some t → t ≠ "" → t ≠ NA →
      firstDigitRun t.toList = some ds →
      (((compare_battery_level dae rvd aed).isMatch = true ↔
          |r.toRat - (digitsVal ds : ℚ)| ≤ 2) ∧
        (compare_battery_level dae rvd aed).error = none)) ∧
    (compare_battery_level (some "G5") [("Niveau de charge de la batterie en %", "72.0")]
        [("Capacité restante de la batterie", "70 %")]).isMatch = true ∧
    (compare_battery_level (some "G5") [("Niveau de charge de la batterie en %", "72.01")]
        [("Capacité restante de la batterie", "70 %")]).isMatch = false ∧
    (∀ (dae : Option String) (rvd aed : List (String × String)),
      (lookupD rvd "Niveau de charge de la batterie en %" = none ∨
        lookupD rvd "Niveau de charge de la batterie en %" = some "" ∨
        lookupD rvd "Niveau de charge de la batterie en %" = some NA) →
      (compare_battery_level dae rvd aed).isMatch = false ∧
        (compare_battery_level dae rvd aed).error = some "Missing RVD battery data") ∧
    (∀ (dae : Option String) (rvd aed : List (String × String)) (s : String),
      lookupD rvd "Niveau de charge de la batterie en %" = some s → s ≠ "" → s ≠ NA →
      pyFloat? s = none →
      (compare_battery_level dae rvd aed).isMatch = false ∧
        (compare_battery_level dae rvd aed).error = some (floatErrMsg s)) ∧
    (∀ (dae : Option String) (rvd aed : List (String × String)) (s : String) (r : Dec),
      lookupD rvd "Niveau de charge de la batterie en %" = some s → s ≠ "" → s ≠ NA →
      pyFloat? s = some r →
      (lookupD aed (if dae = some "G5" then "Capacité restante de la batterie"
                    else "Capacité restante de la batterie 12V") = none ∨
       lookupD aed (if dae = some "G5" then "Capacité restante de la batterie"
                    else "Capacité restante de la batterie 12V") = some "" ∨
       lookupD aed (if dae = some "G5" then "Capacité restante de la batterie"
                    else "Capacité restante de la batterie 12V") = some NA) →
      (compare_battery_level dae rvd aed).isMatch = false ∧
        (compare_battery_level dae rvd aed).error = some "Missing AED battery data") ∧
    (∀ (dae : Option String) (rvd aed : List (String × String)) (s t : String) (r : Dec),
      lookupD rvd "Niveau de charge de la batterie en %" = some s → s ≠ "" → s ≠ NA →
      pyFloat? s = some r →
      lookupD aed (if dae = some "G5" then "Capacité restante de la batterie"
                   else "Capacité restante de la batterie 12V") = some t → t ≠ "" → t ≠ NA →
      firstDigitRun t.toList = none →
      (compare_battery_level dae rvd aed).isMatch = false ∧
        (compare_battery_level dae rvd aed).error
          = some "Cannot extract battery level from AED data") := by
  refine ⟨?_, by decide, by decide, ?_, ?_, ?_, ?_⟩
  · intro dae rvd aed s t r ds hs hs1 hs2 hr ht ht1 ht2 hds
    rw [compare_battery_level_success dae rvd aed hs hs1 hs2 hr ht ht1 ht2 hds]
    exact ⟨withinTol2_iff r (digitsVal ds), rfl⟩
  · intro dae rvd aed h
    rcases h with h | h | h <;>
      simp [compare_battery_level, h, NA]
  · intro dae rvd aed s hs hs1 hs2 hr
    have h1 : (decide (s = "") || decide (s = NA)) = false := by simp [hs1, hs2]
    simp [compare_battery_level, hs, h1, hr]
  · intro dae rvd aed s r hs hs1 hs2 hr ht
    have hs3 : s ≠ "N/A" := hs2
    rcases ht with ht | ht | ht <;>
      simp [compare_battery_level, hs, hs1, hs3, hr, ht, NA]
  · intro dae rvd aed s t r hs hs1 hs2 hr ht ht1 ht2 hds
    have hs3 : s ≠ "N/A" := hs2
    have ht3 : t ≠ "N/A" := ht2
    have hds2 : firstDigitRun t.data = none := hds
    simp [compare_battery_level, hs, hs1, hs3, hr, ht, ht1, ht3, hds, hds2, NA]

/-- Witness for C2: the tolerance equivalence applied at the concrete
pair (71.5, 70), and the error path at an empty RVD dict. -/
theorem claim_C2_battery_tolerance_witness :
    ((compare_battery_level (some "G5") [("Niveau de charge de la batterie en %", "71.5")]
        [("Capacité restante de la batterie", "70 %")]).isMatch = true ↔
      |(Dec.mk 715 1).toRat - (70 : ℚ)| ≤ 2) ∧
    (compare_battery_level none [] []).error = some "Missing RVD battery data" :=
  ⟨(claim_C2_battery_tolerance.1 (some "G5")
      [("Niveau de charge de la batterie en %", "71.5")]
      [("Capacité restante de la batterie", "70 %")] "71.5" "70 %" ⟨715, 1⟩ ['7', '0']
      (by decide) (by decide) (by decide) (by decide) (by decide) (by decide) (by decide)
      (by decide)).1,
   (claim_C2_battery_tolerance.2.2.2.1 none [] [] (Or.inl rfl)).2⟩

/-- **C1.** (code bug) The spec promises month/year-granularity dates:
a month/year-only string is supposed to parse (day defaulting to 1) and
to compare equal to any full date of the same month.  In the code,
the local format list of `parse_date` has no month/year format (the
module-level `DATE_FORMATS` constant that lists them is dead code), so
`"12/2023"` fails to parse; comparing it against `"15/12/2023"`
produces *no* match key at all plus a parse error, where the claim
requires a match flag of `true`. -/
theorem claim_C1_month_year_dates :
    parse_date "12/2023" = (none, some "Unrecognized format: 12-2023") ∧
    (compare_dates_with_releve (some "12/2023") (some "15/12/2023") none none).matchKey
        .rvd_original .rvd_releve = none ∧
    (compare_dates_with_releve (some "12/2023") (some "15/12/2023") none none).errors
      = ["rvd_original: Unrecognized format: 12-2023"] := by
  refine ⟨by decide, by decide, by decide⟩

/-- **C10.** If any successfully parsed date among the compared sources
has day-of-month 1 — e.g. the genuine full date 01/12/2023 — then every
pairwise match flag of the field is computed by year-and-month equality
only; in particular 01/12/2023 against 15/12/2023 yields `true`. -/
theorem claim_C10_day_one_forces_month_granularity :
    (∀ (v0 v1 v2 v3 : Option String) (s1 s2 sx : Source) (x1 x2 xx : String)
        (d1 d2 dx : PDate),
      srcVals v0 v1 v2 v3 sx = some xx → xx ≠ "" → xx ≠ NA →
      (parse_date xx).1 = some dx → dx.day = 1 →
      srcVals v0 v1 v2 v3 s1 = some x1 → x1 ≠ "" → x1 ≠ NA →
      (parse_date x1).1 = some d1 →
      srcVals v0 v1 v2 v3 s2 = some x2 → x2 ≠ "" → x2 ≠ NA →
      (parse_date x2).1 = some d2 →
      s1.idx < s2.idx →
      (compare_dates_with_releve v0 v1 v2 v3).matchKey s1 s2 =
        some (d1.year == d2.year && d1.month == d2.month)) ∧
    (compare_dates_with_releve (some "01/12/2023") (some "15/12/2023") none none).matchKey
        .rvd_original .rvd_releve = some true := by
  refine ⟨?_, by decide⟩
  intro v0 v1 v2 v3 s1 s2 sx x1 x2 xx d1 d2 dx hvx hxx1 hxx2 hdx hday hv1 h11 h12 hd1
    hv2 h21 h22 hd2 hlt
  have e1 : (decide (x1 = "") || decide (x1 = NA)) = false := by simp [h11, h12]
  have e2 : (decide (x2 = "") || decide (x2 = NA)) = false := by simp [h21, h22]
  have ex : (decide (xx = "") || decide (xx = NA)) = false := by simp [hxx1, hxx2]
  simp only [compare_dates_with_releve, hv1, hv2, e1, e2, Bool.false_eq_true, if_false,
    Option.map_some', hd1, hd2, hlt, if_true]
  split
  · rfl
  next hm =>
    exfalso
    refine hm ?_
    rw [List.any_eq_true]
    refine ⟨sx, by cases sx <;> simp [srcList], ?_⟩
    simp only [hvx, ex, Bool.false_eq_true, if_false, Option.map_some', hdx, hday]
    rfl

/-- **C3.** The electrodes section always carries an adult comparison;
the pediatric comparison is the empty dict (modelled `none`) exactly
when the pediatric-change flag is not `"Oui"`, and when the flag is set
it is the full pediatric sub-result, whose two sub-fields are the
serial-number and expiry-date comparisons over the PEDIATRIQUES field
names. -/
theorem claim_C3_pediatric_gating :
    ∀ (dae : Option String) (rvd aed : List (String × String)) (images : List ImageRec),
      ((compare_section dae "electrodes" rvd aed images).elec?.isSome = true) ∧
      (lookupD rvd "Changement électrodes pédiatriques" ≠ some "Oui" →
        (compare_section dae "electrodes" rvd aed images).elec?.map ElectrodesResult.pediatriques
          = some none) ∧
      (lookupD rvd "Changement électrodes pédiatriques" = some "Oui" →
        (compare_section dae "electrodes" rvd aed images).elec?.map ElectrodesResult.pediatriques
          = some (some (compare_electrodes_section rvd images "pediatriques"))) ∧
      (compare_electrodes_section rvd images "pediatriques").numero_de_serie
        = compare_rvd_releve (lookupD rvd "Numéro de série ELECTRODES PEDIATRIQUES")
            (lookupD rvd "Numéro de série ELECTRODES PEDIATRIQUES relevé") none
            ((get_image_by_type images "Electrodes").bind (·.serial)) normalize_serial ∧
      (compare_electrodes_section rvd images "pediatriques").date_de_peremption
        = compare_dates_with_releve (lookupD rvd "Date de péremption ELECTRODES PEDIATRIQUES")
            (lookupD rvd "Date de péremption ELECTRODES PEDIATRIQUES relevée") none
            ((get_image_by_type images "Electrodes").bind (·.date)) := by
  intro dae rvd aed images
  refine ⟨?_, ?_, ?_, ?_, ?_⟩
  · by_cases hf : lookupD rvd "Changement électrodes pédiatriques" = some "Oui" <;>
      simp [compare_section, SectionOut.elec?, hf]
  · intro hf
    simp [compare_section, SectionOut.elec?, hf]
  · intro hf
    simp [compare_section, SectionOut.elec?, hf]
  · unfold compare_electrodes_section
    rfl
  · unfold compare_electrodes_section
    rfl

/-- Witness for C3: the pediatric result is absent for an RVD without
the flag and present for an RVD with it. -/
theorem claim_C3_pediatric_gating_witness :
    (compare_section none "electrodes" [] [] []).elec?.map ElectrodesResult.pediatriques
      = some none ∧
    ((compare_section none "electrodes" [("Changement électrodes pédiatriques", "Oui")] [] []).elec?.map
        ElectrodesResult.pediatriques)
      = some (some (compare_electrodes_section
          [("Changement électrodes pédiatriques", "Oui")] [] "pediatriques")) :=
  ⟨(claim_C3_pediatric_gating none [] [] []).2.1 (by decide),
   (claim_C3_pediatric_gating none [("Changement électrodes pédiatriques", "Oui")] [] []).2.2.1
     (by decide)⟩

/-- **C4.** A `match_<A>_<B>` key exists only when both sources have a
present (non-missing, non-empty, non-`"N/A"`) value — and, for date
fields, only when both values furthermore parse; when a side is not
present the key is absent (`none`, which is distinct from a recorded
`false`). -/
theorem claim_C4_match_key_presence :
    (∀ (vals : Source → Option String) (nrm : String → String) (s1 s2 : Source) (b : Bool),
      ((compare_values vals nrm).matchKey s1 s2 = some b →
        present (vals s1) = true ∧ present (vals s2) = true) ∧
      (present (vals s1) = false ∨ present (vals s2) = false →
        (compare_values vals nrm).matchKey s1 s2 = none)) ∧
    (∀ (v0 v1 v2 v3 : Option String) (s1 s2 : Source) (b : Bool),
      (compare_dates_with_releve v0 v1 v2 v3).matchKey s1 s2 = some b →
      ∃ x1 d1 x2 d2,
        srcVals v0 v1 v2 v3 s1 = some x1 ∧ x1 ≠ "" ∧ x1 ≠ NA ∧ (parse_date x1).1 = some d1 ∧
        srcVals v0 v1 v2 v3 s2 = some x2 ∧ x2 ≠ "" ∧ x2 ≠ NA ∧ (parse_date x2).1 = some d2) := by
  constructor
  · intro vals nrm s1 s2 b
    constructor
    · intro h
      unfold compare_values at h
      dsimp only at h
      by_cases hc : (decide (s1.idx < s2.idx) && present (vals s1) && present (vals s2)) = true
      · simp only [Bool.and_eq_true] at hc
        exact ⟨hc.1.2, hc.2⟩
      · rw [if_neg hc] at h
        cases h
    · intro h
      unfold compare_values
      dsimp only
      have hc : (decide (s1.idx < s2.idx) && present (vals s1) && present (vals s2)) = false := by
        rcases h with h | h <;> simp [h]
      simp only [hc, Bool.false_eq_true, if_false]
  · intro v0 v1 v2 v3 s1 s2 b h
    rcases hv1 : srcVals v0 v1 v2 v3 s1 with _ | x1
    · rw [compare_dates_with_releve] at h
      simp only [hv1] at h
      cases h
    rcases hb1 : (decide (x1 = "") || decide (x1 = NA)) with _ | _
    case true =>
      rw [compare_dates_with_releve] at h
      simp only [hv1, hb1, if_true] at h
      cases h
    rcases hp1 : (parse_date x1).1 with _ | d1
    · rw [compare_dates_with_releve] at h
      simp only [hv1, hb1, Bool.false_eq_true, if_false, Option.map_some', hp1] at h
      cases h
    rcases hv2 : srcVals v0 v1 v2 v3 s2 with _ | x2
    · rw [compare_dates_with_releve] at h
      simp only [hv1, hb1, Bool.false_eq_true, if_false, Option.map_some', hp1, hv2] at h
      cases h
    rcases hb2 : (decide (x2 = "") || decide (x2 = NA)) with _ | _
    case true =>
      rw [compare_dates_with_releve] at h
      simp only [hv1, hb1, hv2, hb2, Bool.false_eq_true, if_false, if_true,
        Option.map_some', hp1] at h
      cases h
    rcases hp2 : (parse_date x2).1 with _ | d2
    · rw [compare_dates_with_releve] at h
      simp only [hv1, hb1, hv2, hb2, Bool.false_eq_true, if_false, Option.map_some',
        hp1, hp2] at h
      cases h
    have e1 := hb1
    have e2 := hb2
    simp only [Bool.or_eq_false_iff, decide_eq_false_iff_not] at e1 e2
    exact ⟨x1, d1, x2, d2, rfl, e1.1, e1.2, hp1, rfl, e2.1, e2.2, hp2⟩

/-- Witness for C4: a present pair carries a key; an absent AED side
suppresses it. -/
theorem claim_C4_match_key_presence_witness :
    (present (srcVals (some "A") (some "a") none none Source.rvd_original) = true ∧
      present (srcVals (some "A") (some "a") none none Source.rvd_releve) = true) ∧
    (compare_values (srcVals (some "A") none none none) normalize_serial).matchKey
        Source.rvd_original Source.aed = none :=
  ⟨(claim_C4_match_key_presence.1 (srcVals (some "A") (some "a") none none) normalize_serial
      Source.rvd_original Source.rvd_releve true).1 (by decide),
   (claim_C4_match_key_presence.1 (srcVals (some "A") none none none) normalize_serial
      Source.rvd_original Source.aed true).2 (Or.inr (by decide))⟩

/-- **C5.** With a defined device type but no (or an empty) RVD
document, `compare_data` short-circuits: it returns the explicit
top-level failure message and the placeholder run with all three
sections empty, leaving the session state untouched. -/
theorem claim_C5_missing_rvd :
    ∀ (st : SessionState) (dt : String) (c : Char),
      st.dae_type = some dt → dt.toList.getLast? = some c →
      (st.processed_data.RVD = none ∨ st.processed_data.RVD = some []) →
      compare_data st = some (st, emptyRun, ["Données RVD manquantes pour la comparaison"]) := by
  intro st dt c h1 h2 h3
  unfold compare_data
  rw [h1]
  dsimp only
  rw [h2]
  dsimp only
  have hrvd : (st.processed_data.RVD.getD []) = [] := by
    rcases h3 with h | h <;> simp [h]
  rw [if_pos hrvd]

/-- Witness for C5 at a concrete state with `dae_type = "G5"` and no
RVD. -/
theorem claim_C5_missing_rvd_witness :
    compare_data c5state
      = some (c5state, emptyRun, ["Données RVD manquantes pour la comparaison"]) :=
  claim_C5_missing_rvd c5state "G5" '5' rfl rfl (Or.inl rfl)

/-- **C6 counterexample.** The claim "no side effects other than
producing the output structure" fails: `compare_data` also *stores* the
run in the shared session state (`processed_data["comparisons"]`), so
the resulting state differs from the input state. -/
theorem claim_C6_counterexample :
    ¬ (∀ (st st' : SessionState) (run : ComparisonRun) (errs : List String),
        compare_data st = some (st', run, errs) → st' = st) := by
  intro h
  have heq := h sampleState _ _ _ rfl
  have h2 := congrArg (fun s : SessionState => s.processed_data.comparisons.isSome) heq
  simp only [sampleState] at h2
  exact Bool.noConfusion h2

/-- **C6 (amended).** With the session state threaded explicitly, the
engine is deterministic in its documented inputs — two states agreeing
on `dae_type`, the RVD/AED documents and the images produce the same
run and messages — and idempotent: its only state effect is storing the
run under `comparisons`, which does not feed back, so running it again
on the updated state returns the same result and leaves the state
fixed. -/
theorem claim_C6_deterministic_idempotent :
    (∀ s1 s2 : SessionState,
      s1.dae_type = s2.dae_type →
      s1.processed_data.RVD = s2.processed_data.RVD →
      s1.processed_data.AEDG3 = s2.processed_data.AEDG3 →
      s1.processed_data.AEDG5 = s2.processed_data.AEDG5 →
      s1.processed_data.images = s2.processed_data.images →
      (compare_data s1).map (fun t => t.2) = (compare_data s2).map (fun t => t.2)) ∧
    (∀ (st st' : SessionState) (run : ComparisonRun) (errs : List String),
      compare_data st = some (st', run, errs) →
      st' = { st with processed_data :=
                { st.processed_data with comparisons := st'.processed_data.comparisons } } ∧
      compare_data st' = some (st', run, errs)) := by
  constructor
  · intro s1 s2 h1 h2 h3 h4 h5
    unfold compare_data pdGetAed
    rw [h1, h2, h3, h4, h5]
    cases hdt : s2.dae_type with
    | none => rfl
    | some dt =>
      dsimp only
      cases hl : dt.toList.getLast? with
      | none => rfl
      | some c =>
        dsimp only
        by_cases hrv : (s2.processed_data.RVD.getD []) = []
        · rw [if_pos hrv, if_pos hrv]
          rfl
        · rw [if_neg hrv, if_neg hrv]
          rfl
  · intro st st' run errs heq
    obtain ⟨dae, pd⟩ := st
    obtain ⟨rv, g3, g5, imgs, comps⟩ := pd
    cases dae with
    | none =>
      unfold compare_data at heq
      dsimp only at heq
      rw [Option.some.injEq, Prod.mk.injEq, Prod.mk.injEq] at heq
      obtain ⟨hst, hrun, herrs⟩ := heq
      subst hrun herrs
      subst hst
      exact ⟨rfl, rfl⟩
    | some dt =>
      unfold compare_data pdGetAed at heq
      dsimp only at heq
      cases hl : dt.toList.getLast? with
      | none =>
        rw [hl] at heq
        dsimp only at heq
        cases heq
      | some c =>
        rw [hl] at heq
        dsimp only at heq
        by_cases hrv : (rv.getD []) = []
        · rw [if_pos hrv] at heq
          rw [Option.some.injEq, Prod.mk.injEq, Prod.mk.injEq] at heq
          obtain ⟨hst, hrun, herrs⟩ := heq
          subst hrun herrs
          subst hst
          refine ⟨rfl, ?_⟩
          unfold compare_data pdGetAed
          dsimp only
          rw [hl]
          dsimp only
          rw [if_pos hrv]
        · rw [if_neg hrv] at heq
          rw [Option.some.injEq, Prod.mk.injEq, Prod.mk.injEq] at heq
          obtain ⟨hst, hrun, herrs⟩ := heq
          subst hrun herrs
          subst hst
          refine ⟨rfl, ?_⟩
          unfold compare_data pdGetAed
          dsimp only
          rw [hl]
          dsimp only
          rw [if_neg hrv]

/-- Witness for C6 (amended): two states that differ only in the
stored `comparisons` produce the same run and messages. -/
theorem claim_C6_deterministic_idempotent_witness :
    (compare_data sampleState).map (fun t => t.2)
      = (compare_data sampleStateB).map (fun t => t.2) :=
  claim_C6_deterministic_idempotent.1 sampleState sampleStateB rfl rfl rfl rfl rfl

/-- Witness for C10: the rule applied to the concrete pair 01/12/2023
(day 1) and 15/12/2023, which therefore compare by year and month. -/
theorem claim_C10_witness :
    (compare_dates_with_releve (some "01/12/2023") (some "15/12/2023") none none).matchKey
        Source.rvd_original Source.rvd_releve
      = some (((2023 : Nat) == 2023) && ((12 : Nat) == 12)) :=
  claim_C10_day_one_forces_month_granularity.1 (some "01/12/2023") (some "15/12/2023") none none
    Source.rvd_original Source.rvd_releve Source.rvd_original
    "01/12/2023" "15/12/2023" "01/12/2023" ⟨2023, 12, 1⟩ ⟨2023, 12, 15⟩ ⟨2023, 12, 1⟩
    (by decide) (by decide) (by decide) (by decide) (by decide)
    (by decide) (by decide) (by decide) (by decide)
    (by decide) (by decide) (by decide) (by decide) (by decide)

/-- **C7.** The G3 parser derives the battery percentage as
`remaining/initial * 100` from the two capacity readings (formatted to
two decimals), guards the derivation — an absent reading yields empty
derived fields instead of a crash — and produces `80.00 %` for
initial 1000 mAh / remaining 800 mAh. -/
theorem claim_C7_g3_percentage :
    (∀ text : String,
      (reGroup1 capInitPat text = none ∨ reGroup1 capRemPat text = none) →
      lookupG3 (extract_aed_g3_data text) "Capacité initiale de la batterie"
          = some (.str "") ∧
      lookupG3 (extract_aed_g3_data text) "Capacité restante de la batterie"
          = some (.str "") ∧
      lookupG3 (extract_aed_g3_data text) "Pourcentage de la batterie"
          = some (.str "")) ∧
    (∀ (text iStr rStr : String),
      reGroup1 capInitPat text = some iStr → reGroup1 capRemPat text = some rStr →
      digitsVal iStr.toList ≠ 0 →
      lookupG3 (extract_aed_g3_data text) "Pourcentage de la batterie"
        = some (.str (fmt2 (digitsVal rStr.toList * 100) (digitsVal iStr.toList) ++ " %"))) ∧
    lookupG3 (extract_aed_g3_data
        "Capacité initiale de la batterie 12V : 1000 mAh\nCapacité restante de la batterie 12V : 800 mAh")
      "Pourcentage de la batterie" = some (.str "80.00 %") := by
  refine ⟨?_, ?_, by decide⟩
  · intro text h
    unfold extract_aed_g3_data extract_g3_body
    rcases h with h | h
    · rw [h]
      dsimp only
      exact ⟨rfl, rfl, rfl⟩
    · rcases hi : reGroup1 capInitPat text with _ | iS
      · dsimp only
        exact ⟨rfl, rfl, rfl⟩
      · rw [h]
        dsimp only
        exact ⟨rfl, rfl, rfl⟩
  · intro text iS rS hi hr hnz
    unfold extract_aed_g3_data extract_g3_body
    rw [hi, hr]
    dsimp only
    rw [if_neg hnz]
    rfl

/-- Witness for C7: a text with no capacity readings yields the three
empty derived fields; the concrete 1000/800 text yields the formatted
ratio. -/
theorem claim_C7_g3_percentage_witness :
    (lookupG3 (extract_aed_g3_data "Autotest : OK") "Pourcentage de la batterie"
        = some (.str "")) ∧
    lookupG3 (extract_aed_g3_data
        "Capacité initiale de la batterie 12V : 1000 mAh\nCapacité restante de la batterie 12V : 800 mAh")
      "Pourcentage de la batterie"
      = some (.str (fmt2 (digitsVal "800".toList * 100) (digitsVal "1000".toList) ++ " %")) :=
  ⟨(claim_C7_g3_percentage.1 "Autotest : OK" (Or.inl (by decide))).2.2,
   claim_C7_g3_percentage.2.1
     "Capacité initiale de la batterie 12V : 1000 mAh\nCapacité restante de la batterie 12V : 800 mAh"
     "1000" "800" (by decide) (by decide) (by decide)⟩

/-- **C8.** Every exception raised inside the G3 parser body is caught
at the parser boundary and returned as the single-key error map
`{"erreur": str(e)}`; the parser itself is total.  The division-by-zero
input shows the exceptional path is real. -/
theorem claim_C8_g3_exception_boundary :
    (∀ text : String,
      (∃ r, extract_g3_body text = .ok r ∧ extract_aed_g3_data text = r) ∨
      (∃ e, extract_g3_body text = .error e ∧
        extract_aed_g3_data text = [("erreur", PyVal.str e)])) ∧
    extract_aed_g3_data
        "Capacité initiale de la batterie 12V : 0 mAh\nCapacité restante de la batterie 12V : 800 mAh"
      = [("erreur", PyVal.str "float division by zero")] := by
  constructor
  · intro text
    cases h : extract_g3_body text with
    | ok r => exact .inl ⟨r, rfl, by simp [extract_aed_g3_data, h]⟩
    | error e => exact .inr ⟨e, rfl, by simp [extract_aed_g3_data, h]⟩
  · decide

/-- **C9 counterexample.** The "not found" value of `extract_rvd_data`
is the empty string, the very value a present-but-empty field also
produces: the text `"Changement batterie"` *contains* the keyword (with
an empty value) and the empty text does not, yet both entries are
`""` — the sentinel is not distinguishable from a legitimately empty
extracted string. -/
theorem claim_C9_counterexample :
    lookupD (extract_rvd_data "") "Changement batterie" = some "" ∧
    lookupD (extract_rvd_data "Changement batterie") "Changement batterie" = some "" :=
  ⟨by decide, by decide⟩

/-- **C9 (amended).** The field extractor is total and produces an
entry for every registry keyword; when no line carries the keyword the
entry is the empty string (the same value as a legitimately empty
extracted field, not a distinguishable sentinel). -/
theorem claim_C9_entry_and_sentinel :
    (∀ (text kw : String), kw ∈ rvdKeywords →
      ∃ v, lookupD (extract_rvd_data text) kw = some v) ∧
    (∀ (text kw : String), kw ∈ rvdKeywords →
      (∀ l ∈ pySplitlines text, startsWithCI (pyStrip l) kw = false) →
      lookupD (extract_rvd_data text) kw = some "") := by
  constructor
  · intro text kw hmem
    refine ⟨postProcessRVD kw (scanLines kw (pySplitlines text)), ?_⟩
    unfold extract_rvd_data
    exact lookupD_map_self rvdKeywords _ kw hmem
  · intro text kw hmem habs
    have hcs : lowerStr kw ≠ "code site" := by
      have hall : rvdKeywords.all (fun k => !(lowerStr k == "code site")) = true := by decide
      have h2 := List.all_eq_true.mp hall kw hmem
      simpa using h2
    have hscan : scanLines kw (pySplitlines text) = "" := scanLines_absent hcs _ habs
    have hpost : postProcessRVD kw "" = "" := by simp [postProcessRVD]
    unfold extract_rvd_data
    rw [lookupD_map_self rvdKeywords _ kw hmem, hscan, hpost]

/-- Witness for C9: a keyword-free text maps the keyword to the empty
string. -/
theorem claim_C9_entry_and_sentinel_witness :
    lookupD (extract_rvd_data "xyz") "Changement batterie" = some "" :=
  claim_C9_entry_and_sentinel.2 "xyz" "Changement batterie" (by decide) (by decide)

/-! ## Sanity checks on concrete inputs -/

example : parse_date "15/12/2023" = (some ⟨2023, 12, 15⟩, none) := by decide

example : parse_date "01/12/2023" = (some ⟨2023, 12, 1⟩, none) := by decide

example : parse_date "2023-12-31" = (some ⟨2023, 12, 31⟩, none) := by decide

example : parse_date "12/2023" = (none, some "Unrecognized format: 12-2023") := by decide

example : parse_date "31/12/2023 14:30" = (some ⟨2023, 12, 31⟩, none) := by decide

example :
    (compare_battery_level (some "G5") [("Niveau de charge de la batterie en %", "72.0")]
      [("Capacité restante de la batterie", "70 %")]).isMatch = true := by decide

example :
    (compare_battery_level (some "G5") [("Niveau de charge de la batterie en %", "72.01")]
      [("Capacité restante de la batterie", "70 %")]).isMatch = false := by decide

example :
    lookupD (extract_rvd_data "Changement batterie Oui\nNiveau de charge de la batterie en % : 72 %x")
      "Changement batterie" = some "Oui" := by decide

example :
    lookupD (extract_rvd_data "Niveau de charge de la batterie en % 72.5 t")
      "Niveau de charge de la batterie en %" = some "72.5" := by decide

example :
    lookupD (extract_rvd_data "Numéro de série DEFIBRILLATEUR  SN-12X extra")
      "Numéro de série DEFIBRILLATEUR" = some "SN-12X" := by decide

example :
    lookupD (extract_rvd_data "Date fabrication DEFIBRILLATEUR : le 12/11/2020 14:30 Vérification x")
      "Date fabrication DEFIBRILLATEUR" = some "12/11/2020 14:30" := by decide

example :
    lookupG3 (extract_aed_g3_data
        "Capacité initiale de la batterie 12V : 1000 mAh\nCapacité restante de la batterie 12V : 800 mAh")
      "Pourcentage de la batterie" = some (.str "80.00 %") := by decide

example :
    lookupG3 (extract_aed_g3_data "Série DSA : 012345X")
      "Série DSA" = some (.str "12345X") := by decide

example :
    lookupG3 (extract_aed_g3_data "Numéro de lot : 1234567")
      "Numéro de lot" = some (.str "12345-67") := by decide

example :
    lookupG3 (extract_aed_g3_data
        "Capacité initiale de la batterie 12V : 0 mAh\nCapacité restante de la batterie 12V : 800 mAh")
      "erreur" = some (.str "float division by zero") := by decide

end MedInspector
